import Mathlib

/-!
Shallow embedding of the atlas-txn-sender ingress adapter
(`src/rpc_server.rs`) and the `SolanaRpc` interface (`src/solana_rpc.rs`),
with the parts of the retry engine that the spec describes but whose code
is not in this repository snapshot modelled from the spec.

Conventions of the embedding:
- Machine integers become `Nat`; no arithmetic here ever overflows in the
  Rust code paths embedded, so no modular reduction is needed.
- `Instant::now()` / `SystemTime::now()` are passed in as explicit `Nat`
  timestamps (`now_monotonic`, `now_unix`).
- The vendored `decode_and_deserialize` function is external to the
  reviewed sources, so `send_transaction` is parameterised by an abstract
  decode function of the same shape.
- A Rust panic (the out-of-bounds `signatures[0]` index) is modelled as
  `none` in the `Option SendOutcome` result.
- The fire-and-forget handoff `self.txn_sender.send_transaction(...)` is
  recorded as data: the list of `(TransactionData, commitment)` pairs
  handed to the sender by the call.  Nothing is awaited; metrics calls
  (`statsd_count`, `statsd_time`) have no observable effect and are not
  modelled.
-/

namespace AtlasTxnSender

/-- Commitment levels from `solana_sdk::commitment_config::CommitmentLevel`;
the Rust `Default` derive picks `Finalized`. -/
inductive CommitmentLevel
  | processed
  | confirmed
  | finalized
  deriving DecidableEq, Repr

/-- The Rust `CommitmentLevel::default()`, which is `Finalized`. -/
def CommitmentLevel.defaultLevel : CommitmentLevel := .finalized

/-- `solana_sdk::commitment_config::CommitmentConfig`: a wrapper holding a
commitment level, as constructed in `rpc_server.rs` line 83. -/
structure CommitmentConfig where
  commitment : CommitmentLevel
  deriving DecidableEq, Repr

/-- `solana_transaction_status::UiTransactionEncoding`. -/
inductive UiTransactionEncoding
  | binary
  | base64
  | base58
  | json
  | jsonParsed
  deriving DecidableEq, Repr

/-- `solana_transaction_status::TransactionBinaryEncoding`. -/
inductive TransactionBinaryEncoding
  | base58
  | base64
  deriving DecidableEq, Repr

/-- `UiTransactionEncoding::into_binary_encoding`: `Binary` and `Base58`
map to base58, `Base64` to base64, the JSON encodings to `None`. -/
def UiTransactionEncoding.into_binary_encoding :
    UiTransactionEncoding → Option TransactionBinaryEncoding
  | .binary => some .base58
  | .base58 => some .base58
  | .base64 => some .base64
  | .json => none
  | .jsonParsed => none

/-- The `Display` form of the encoding, used in the error message of
`rpc_server.rs` lines 60-64. -/
def UiTransactionEncoding.display : UiTransactionEncoding → String
  | .binary => "binary"
  | .base64 => "base64"
  | .base58 => "base58"
  | .json => "json"
  | .jsonParsed => "jsonParsed"

/-- `solana_rpc_client_api::config::RpcSendTransactionConfig`, the `params`
argument of `sendTransaction`. -/
structure RpcSendTransactionConfig where
  skip_preflight : Bool
  preflight_commitment : Option CommitmentLevel
  encoding : Option UiTransactionEncoding
  max_retries : Option Nat
  min_context_slot : Option Nat
  deriving DecidableEq, Repr

/-- `solana_sdk::transaction::VersionedTransaction` as the embedded code
uses it: `signatures` holds the base58 string form of each signature (the
code only ever evaluates `signatures[0].to_string()`), and the message is
kept as an opaque payload. -/
structure VersionedTransaction where
  signatures : List String
  message : String
  deriving DecidableEq, Repr

/-- `crate::transaction_store::TransactionData` exactly as constructed in
`rpc_server.rs` lines 75-82. -/
structure TransactionData where
  wire_transaction : List Nat
  versioned_transaction : VersionedTransaction
  sent_at : Nat
  sent_at_unix : Nat
  retry_count : Nat
  max_retries : Option Nat
  deriving DecidableEq, Repr

/-- The error values produced through `crate::errors::invalid_request`:
an invalid-request RPC error carrying a message. -/
inductive RpcError
  | invalid_request (msg : String)
  deriving DecidableEq, Repr

/-- Abstract shape of the vendored
`decode_and_deserialize::<VersionedTransaction>`: payload string and
binary encoding to wire bytes plus decoded transaction, or an error
message (`e.to_string()` in the code). -/
abbrev DecodeFn :=
  String → TransactionBinaryEncoding → Except String (List Nat × VersionedTransaction)

/-- The observable outcome of one `send_transaction` call: the RPC result
returned synchronously to the caller, and the records handed to
`txn_sender.send_transaction` (fire-and-forget: the handoff is the only
interaction with the sender, nothing is awaited or read back). -/
structure SendOutcome where
  result : Except RpcError String
  handed : List (TransactionData × Option CommitmentConfig)
  deriving Repr

/-- `health` endpoint, `rpc_server.rs` lines 48-50. -/
def health : String := "ok"

/-- `validate_send_transaction_params`, `rpc_server.rs` lines 91-98. -/
def validate_send_transaction_params (params : RpcSendTransactionConfig) :
    Except RpcError Unit :=
  if !params.skip_preflight then
    .error (.invalid_request "running preflight check is not supported")
  else
    .ok ()

/-- The signature extraction of `rpc_server.rs` line 74,
`versioned_transaction.signatures[0].to_string()`: a Rust index that
panics when the signature list is empty, so the embedding returns an
`Option`. -/
def extractSignature (vt : VersionedTransaction) : Option String :=
  vt.signatures[0]?

/-- The `TransactionData` literal of `rpc_server.rs` lines 75-82. -/
def buildTransactionData (wire_transaction : List Nat) (vt : VersionedTransaction)
    (now_monotonic now_unix : Nat) (max_retries : Option Nat) : TransactionData :=
  { wire_transaction := wire_transaction
    versioned_transaction := vt
    sent_at := now_monotonic
    sent_at_unix := now_unix
    retry_count := 0
    max_retries := max_retries }

/-- `send_transaction`, `rpc_server.rs` lines 51-88.  `none` models the
panic of the `signatures[0]` index; otherwise the outcome holds the value
returned to the caller and the records handed to the transaction sender.
The function takes no confirmation oracle and no store: the result is
computed from the request alone and returned synchronously. -/
def send_transaction (decode : DecodeFn) (now_monotonic now_unix : Nat)
    (txn : String) (params : RpcSendTransactionConfig) : Option SendOutcome :=
  match validate_send_transaction_params params with
  | .error e => some { result := .error e, handed := [] }
  | .ok _ =>
    let encoding := params.encoding.getD UiTransactionEncoding.base58
    match encoding.into_binary_encoding with
    | none =>
      let msg := "unsupported encoding: " ++ encoding.display ++
        ". Supported encodings: base58, base64"
      some { result := .error (.invalid_request msg), handed := [] }
    | some binary_encoding =>
      match decode txn binary_encoding with
      | .error e => some { result := .error (.invalid_request e), handed := [] }
      | .ok (wire_transaction, versioned_transaction) =>
        match extractSignature versioned_transaction with
        | none => none
        | some signature =>
          let transaction := buildTransactionData wire_transaction
            versioned_transaction now_monotonic now_unix params.max_retries
          let cc : CommitmentConfig :=
            { commitment := params.preflight_commitment.getD CommitmentLevel.defaultLevel }
          some { result := .ok signature, handed := [(transaction, some cc)] }

/-- The `SolanaRpc` trait of `src/solana_rpc.rs` lines 4-11: an instance is
a record of its three methods.  `get_next_slot` returns `Option<u64>`
(here `Option Nat`); the two confirmation queries return the block time
(`UnixTimestamp`, here `Int`) if confirmed and `None` otherwise, one at a
caller-specified commitment, one without a commitment argument. -/
structure SolanaRpc where
  get_next_slot : Option Nat
  confirm_transaction : String → Option Int
  confirm_transaction_with_commitment : String → CommitmentConfig → Option Int

/-- Modelled from the spec: the implementations of `SolanaRpc` are not part
of the reviewed sources (only the trait declaration is), so an oracle is
built from its observation state, per the spec contract: `confirmedAt`
maps a signature and commitment level to the wall-clock time the
transaction became confirmed at that commitment (or `none` if not yet
observed confirmed), and `slot` is the most recently observed slot number
(or `none` if unknown).  The default-commitment variant is evaluated at
the default commitment level. -/
def mkSolanaRpc (confirmedAt : String → CommitmentLevel → Option Int)
    (slot : Option Nat) : SolanaRpc :=
  { get_next_slot := slot
    confirm_transaction := fun sig => confirmedAt sig CommitmentLevel.defaultLevel
    confirm_transaction_with_commitment := fun sig cc => confirmedAt sig cc.commitment }

/-- The mutually exclusive terminal causes of a record (spec §3, §4.2). -/
inductive TerminalCause
  | Confirmed
  | Expired
  | RetriesExhausted
  deriving DecidableEq, Repr

/-- Modelled from the spec: the lifecycle state of one accepted record in
the engine — live with its current retry counter, or removed with its
terminal cause and final retry counter.  The Retry Scheduler code is not
part of the reviewed sources; this follows spec §3 and §4.2. -/
inductive RecordState
  | live (retry_count : Nat)
  | removed (cause : TerminalCause) (retry_count : Nat)
  deriving DecidableEq, Repr

/-- The record's retry counter in either lifecycle state. -/
def RecordState.retryCount : RecordState → Nat
  | .live rc => rc
  | .removed _ rc => rc

/-- What one sweep observes about a single record: whether the
Confirmation Oracle reports it confirmed, whether its resend timer is due,
and whether its blockhash is past the validity window at the current slot
(spec §4.2 steps 2a-2c). -/
structure SweepObs where
  confirmed : Bool
  due : Bool
  expired : Bool
  deriving DecidableEq, Repr

/-- Modelled from the spec: one Retry Scheduler sweep step on a single
record (spec §4.2 step 2): if confirmed, remove with cause `Confirmed`;
otherwise if not due, skip; otherwise if expired, remove with cause
`Expired`; otherwise if `retry_count` has reached `max_retries`, remove
with cause `RetriesExhausted`; otherwise forward and increment
`retry_count`.  A removed record is never processed again. -/
def sweepStep (max_retries : Nat) (obs : SweepObs) : RecordState → RecordState
  | .live rc =>
    if obs.confirmed then .removed .Confirmed rc
    else if !obs.due then .live rc
    else if obs.expired then .removed .Expired rc
    else if max_retries ≤ rc then .removed .RetriesExhausted rc
    else .live (rc + 1)
  | s => s

/-- Modelled from the spec: the record state after a sequence of sweeps,
starting from the freshly ingested record, whose `retry_count` is 0
(`rpc_server.rs` line 80). -/
def runSweeps (max_retries : Nat) (obss : List SweepObs) : RecordState :=
  obss.foldl (fun s o => sweepStep max_retries o s) (.live 0)

/-! Concrete fixtures used by witnesses and counterexamples. -/

/-- A decoded transaction with exactly one signature. -/
def vt1 : VersionedTransaction := { signatures := ["sig1"], message := "m" }

/-- A decoded transaction with zero signatures. -/
def emptyVt : VersionedTransaction := { signatures := [], message := "m" }

/-- A decode function that succeeds with `vt1`. -/
def okDecode : DecodeFn := fun _ _ => .ok ([1], vt1)

/-- A decode function that succeeds with a zero-signature transaction. -/
def emptySigDecode : DecodeFn := fun _ _ => .ok ([1], emptyVt)

/-- A decode function that fails, as `decode_and_deserialize` does on a
malformed payload. -/
def failDecode : DecodeFn := fun _ _ => .error "invalid base58 encoding"

/-- Request parameters that pass validation, with every optional field
unset. -/
def okParams : RpcSendTransactionConfig :=
  { skip_preflight := true
    preflight_commitment := none
    encoding := none
    max_retries := none
    min_context_slot := none }

/-- Request parameters with `skip_preflight` false. -/
def noSkipParams : RpcSendTransactionConfig :=
  { okParams with skip_preflight := false }

/-- The record built by a successful submission of `vt1` at time 0. -/
def td0 : TransactionData := buildTransactionData [1] vt1 0 0 none

/-- The commitment handed along with `td0`. -/
def cc0 : Option CommitmentConfig := some { commitment := .finalized }

/-- The outcome of a successful submission of `vt1` via `okDecode` at time
`t`, used by the C2 counterexample. -/
def dupOutcome (t : Nat) : SendOutcome :=
  { result := .ok "sig1"
    handed := [(buildTransactionData [1] vt1 t t none,
      some { commitment := .finalized })] }

end AtlasTxnSender

namespace AtlasTxnSender

/-- C10: for every call, the health endpoint returns exactly the string
"ok" (`rpc_server.rs` lines 48-50). -/
theorem C10_health_returns_ok : health = "ok" := rfl

/-- C9: for every call with `skip_preflight` false, `send_transaction`
returns the invalid-request error "running preflight check is not
supported" and hands nothing to the transaction sender; the rejection is
uniform in the decode function, payload and timestamps, so it happens
before any decoding and regardless of the payload's content. -/
theorem C9_preflight_not_supported (decode : DecodeFn) (tm tw : Nat)
    (txn : String) (params : RpcSendTransactionConfig)
    (h : params.skip_preflight = false) :
    send_transaction decode tm tw txn params =
      some { result :=
               .error (.invalid_request "running preflight check is not supported"),
             handed := [] } := by
  simp [send_transaction, validate_send_transaction_params, h]

/-- Witness for C9 at concrete input. -/
theorem C9_preflight_not_supported_witness :
    noSkipParams.skip_preflight = false ∧
    send_transaction okDecode 0 0 "payload" noSkipParams =
      some { result :=
               .error (.invalid_request "running preflight check is not supported"),
             handed := [] } :=
  ⟨rfl, C9_preflight_not_supported okDecode 0 0 "payload" noSkipParams rfl⟩

/-- C1: every call that passes parameter validation, whose encoding is
supported and whose payload decodes to a transaction with a first
signature, returns `Ok` of that signature's string, and the single side
channel is the handoff of the constructed record to the transaction
sender: `send_transaction` consults no confirmation oracle (it has no such
input), so the signature is produced synchronously, fire-and-forget. -/
theorem C1_returns_signature_after_handoff (decode : DecodeFn) (tm tw : Nat)
    (txn : String) (params : RpcSendTransactionConfig)
    (be : TransactionBinaryEncoding) (wt : List Nat)
    (vt : VersionedTransaction) (sig : String)
    (hval : validate_send_transaction_params params = .ok ())
    (henc : (params.encoding.getD UiTransactionEncoding.base58).into_binary_encoding
      = some be)
    (hdec : decode txn be = .ok (wt, vt))
    (hsig : extractSignature vt = some sig) :
    send_transaction decode tm tw txn params =
      some { result := .ok sig,
             handed := [(buildTransactionData wt vt tm tw params.max_retries,
               some { commitment :=
                        params.preflight_commitment.getD CommitmentLevel.defaultLevel })] } := by
  simp [send_transaction, hval, henc, hdec, hsig]

/-- Witness for C1 at concrete input. -/
theorem C1_returns_signature_after_handoff_witness :
    validate_send_transaction_params okParams = .ok () ∧
    (okParams.encoding.getD UiTransactionEncoding.base58).into_binary_encoding
      = some .base58 ∧
    okDecode "payload" .base58 = .ok ([1], vt1) ∧
    extractSignature vt1 = some "sig1" ∧
    send_transaction okDecode 0 0 "payload" okParams =
      some { result := .ok "sig1",
             handed := [(buildTransactionData [1] vt1 0 0 okParams.max_retries,
               some { commitment :=
                        okParams.preflight_commitment.getD CommitmentLevel.defaultLevel })] } :=
  ⟨rfl, rfl, rfl, rfl,
    C1_returns_signature_after_handoff okDecode 0 0 "payload" okParams
      .base58 [1] vt1 "sig1" rfl rfl rfl rfl⟩

/-- C5: every call that passes validation and encoding selection but whose
payload fails to decode returns the invalid-request error wrapping the
decode error's message, and hands nothing to the transaction sender (no
record is constructed, state unchanged). -/
theorem C5_decode_failure_no_handoff (decode : DecodeFn) (tm tw : Nat)
    (txn : String) (params : RpcSendTransactionConfig)
    (be : TransactionBinaryEncoding) (e : String)
    (hval : validate_send_transaction_params params = .ok ())
    (henc : (params.encoding.getD UiTransactionEncoding.base58).into_binary_encoding
      = some be)
    (hdec : decode txn be = .error e) :
    send_transaction decode tm tw txn params =
      some { result := .error (.invalid_request e), handed := [] } := by
  simp [send_transaction, hval, henc, hdec]

/-- Witness for C5 at concrete input. -/
theorem C5_decode_failure_no_handoff_witness :
    validate_send_transaction_params okParams = .ok () ∧
    (okParams.encoding.getD UiTransactionEncoding.base58).into_binary_encoding
      = some .base58 ∧
    failDecode "payload" .base58 = .error "invalid base58 encoding" ∧
    send_transaction failDecode 0 0 "payload" okParams =
      some { result := .error (.invalid_request "invalid base58 encoding"),
             handed := [] } :=
  ⟨rfl, rfl, rfl,
    C5_decode_failure_no_handoff failDecode 0 0 "payload" okParams
      .base58 "invalid base58 encoding" rfl rfl rfl⟩

/-- C4: the signature access of `rpc_server.rs` line 74
(`versioned_transaction.signatures[0]`) is in bounds exactly when the
decoded transaction has at least one signature; for an input decoding to a
transaction with zero signatures the access is out of bounds and the call
panics (modelled as `none`). -/
theorem C4_signature_index_unchecked :
    (∀ vt : VersionedTransaction,
        vt.signatures ≠ [] → (extractSignature vt).isSome = true)
    ∧ (∀ vt : VersionedTransaction,
        vt.signatures = [] → extractSignature vt = none)
    ∧ send_transaction emptySigDecode 0 0 "payload" okParams = none := by
  refine ⟨?_, ?_, rfl⟩
  · intro vt h
    unfold extractSignature
    cases hs : vt.signatures with
    | nil => exact absurd hs h
    | cons a t => simp
  · intro vt h
    unfold extractSignature
    rw [h]
    rfl

/-- Witness for C4 at concrete inputs. -/
theorem C4_signature_index_unchecked_witness :
    (vt1.signatures ≠ [] ∧ (extractSignature vt1).isSome = true)
    ∧ (emptyVt.signatures = [] ∧ extractSignature emptyVt = none) :=
  ⟨⟨List.cons_ne_nil "sig1" [], C4_signature_index_unchecked.1 vt1 (List.cons_ne_nil "sig1" [])⟩,
    ⟨rfl, C4_signature_index_unchecked.2.1 emptyVt rfl⟩⟩

/-- C2 counterexample: the claim says a submission whose signature already
has a live record is rejected with a request-level error.  Concretely: a
first submission of the transaction with signature "sig1" succeeds and
hands a record to the sender (so "sig1" is live), yet an identical second
submission is not rejected — it again returns `Ok "sig1"` and hands a
fresh record.  `send_transaction` consults no store and has no error path
after a successful decode. -/
theorem C2_duplicate_not_rejected_counterexample :
    send_transaction okDecode 0 0 "payload" okParams = some (dupOutcome 0)
    ∧ send_transaction okDecode 1 1 "payload" okParams = some (dupOutcome 1) :=
  ⟨rfl, rfl⟩

/-- C2 amended: at the RPC boundary, a submission whose signature already
has a live record is NOT rejected: `send_transaction` performs no
duplicate check, so even under the assumption that the decoded signature
is in an arbitrary set of live signatures, the call returns the signature
and hands a fresh record to the transaction sender.  Any duplicate
handling happens downstream, invisibly to the caller. -/
theorem C2_amended_no_duplicate_check (live : List String) (decode : DecodeFn)
    (tm tw : Nat) (txn : String) (params : RpcSendTransactionConfig)
    (be : TransactionBinaryEncoding) (wt : List Nat)
    (vt : VersionedTransaction) (sig : String)
    (_hlive : sig ∈ live)
    (hval : validate_send_transaction_params params = .ok ())
    (henc : (params.encoding.getD UiTransactionEncoding.base58).into_binary_encoding
      = some be)
    (hdec : decode txn be = .ok (wt, vt))
    (hsig : extractSignature vt = some sig) :
    send_transaction decode tm tw txn params =
      some { result := .ok sig,
             handed := [(buildTransactionData wt vt tm tw params.max_retries,
               some { commitment :=
                        params.preflight_commitment.getD CommitmentLevel.defaultLevel })] } := by
  simp [send_transaction, hval, henc, hdec, hsig]

/-- Witness for the amended C2 at concrete input: "sig1" is live, and the
call still succeeds and hands a record. -/
theorem C2_amended_no_duplicate_check_witness :
    "sig1" ∈ ["sig1"] ∧
    send_transaction okDecode 1 1 "payload" okParams =
      some { result := .ok "sig1",
             handed := [(buildTransactionData [1] vt1 1 1 okParams.max_retries,
               some { commitment :=
                        okParams.preflight_commitment.getD CommitmentLevel.defaultLevel })] } :=
  ⟨List.mem_singleton.mpr rfl,
    C2_amended_no_duplicate_check ["sig1"] okDecode 1 1 "payload" okParams
      .base58 [1] vt1 "sig1" (List.mem_singleton.mpr rfl) rfl rfl rfl rfl⟩

/-- C6: every transaction record handed off at ingestion was built with
`retry_count` 0 (`rpc_server.rs` line 80): whatever outcome a
`send_transaction` call produces, every record in its handoff list has
`retry_count = 0`. -/
theorem C6_ingested_record_retry_count_zero (decode : DecodeFn) (tm tw : Nat)
    (txn : String) (params : RpcSendTransactionConfig) (o : SendOutcome)
    (td : TransactionData) (cc : Option CommitmentConfig)
    (ho : send_transaction decode tm tw txn params = some o)
    (hmem : (td, cc) ∈ o.handed) :
    td.retry_count = 0 := by
  unfold send_transaction at ho
  split at ho
  · injection ho with h
    subst h
    simp at hmem
  · simp only [] at ho
    split at ho
    · injection ho with h
      subst h
      simp at hmem
    · split at ho
      · injection ho with h
        subst h
        simp at hmem
      · split at ho
        · exact Option.noConfusion ho
        · injection ho with h
          subst h
          simp only [List.mem_singleton] at hmem
          have h1 : td = buildTransactionData _ _ tm tw params.max_retries :=
            congrArg Prod.fst hmem
          rw [h1]
          rfl

/-- Witness for C6 at a concrete input. -/
theorem C6_ingested_record_retry_count_zero_witness :
    send_transaction okDecode 0 0 "payload" okParams = some (dupOutcome 0) ∧
    (td0, cc0) ∈ (dupOutcome 0).handed ∧
    td0.retry_count = 0 :=
  ⟨rfl, List.mem_singleton.mpr rfl,
    C6_ingested_record_retry_count_zero okDecode 0 0 "payload" okParams
      (dupOutcome 0) td0 cc0 rfl (List.mem_singleton.mpr rfl)⟩

/-- One sweep step keeps the retry counter within the cap. -/
theorem sweepStep_retryCount_le (m : Nat) (o : SweepObs) (s : RecordState)
    (h : s.retryCount ≤ m) : (sweepStep m o s).retryCount ≤ m := by
  cases s with
  | removed c rc => exact h
  | live rc =>
    simp only [RecordState.retryCount] at h
    simp only [sweepStep]
    split_ifs with h1 h2 h3 h4
    all_goals simp only [RecordState.retryCount]
    all_goals omega

/-- One sweep step never decreases the retry counter. -/
theorem sweepStep_retryCount_mono (m : Nat) (o : SweepObs) (s : RecordState) :
    s.retryCount ≤ (sweepStep m o s).retryCount := by
  cases s with
  | removed c rc => exact Nat.le_refl _
  | live rc =>
    simp only [sweepStep]
    split_ifs
    all_goals simp only [RecordState.retryCount]
    all_goals omega

/-- Folding sweep steps keeps the retry counter within the cap. -/
theorem foldl_sweepStep_le (m : Nat) (l : List SweepObs) (s : RecordState)
    (h : s.retryCount ≤ m) :
    (l.foldl (fun s o => sweepStep m o s) s).retryCount ≤ m := by
  induction l generalizing s with
  | nil => exact h
  | cons o t ih => exact ih _ (sweepStep_retryCount_le m o s h)

/-- Folding sweep steps never decreases the retry counter. -/
theorem foldl_sweepStep_mono (m : Nat) (l : List SweepObs) (s : RecordState) :
    s.retryCount ≤ (l.foldl (fun s o => sweepStep m o s) s).retryCount := by
  induction l generalizing s with
  | nil => exact Nat.le_refl _
  | cons o t ih => exact Nat.le_trans (sweepStep_retryCount_mono m o s) (ih _)

/-- C3: for every accepted record (which starts at `retry_count` 0,
`rpc_server.rs` line 80) and every reachable engine state — i.e. after any
sequence of sweep observations — the retry counter never exceeds the
`max_retries` cap, and extending the sweep sequence never decreases it
(monotone non-decreasing over sweeps). -/
theorem C3_retry_count_monotone_and_capped (max_retries : Nat)
    (obss extra : List SweepObs) :
    (runSweeps max_retries obss).retryCount ≤ max_retries
    ∧ (runSweeps max_retries obss).retryCount
        ≤ (runSweeps max_retries (obss ++ extra)).retryCount := by
  constructor
  · exact foldl_sweepStep_le max_retries obss _ (Nat.zero_le _)
  · unfold runSweeps
    rw [List.foldl_append]
    exact foldl_sweepStep_mono max_retries extra _

/-- C7: the confirmation oracle interface consists of exactly the slot
query and two read-only confirmation variants — `confirm_transaction`
(default commitment) and `confirm_transaction_with_commitment`
(caller-specified commitment) — and, in the spec-modelled oracle, each
returns the recorded wall-clock confirmation time at the queried
commitment, or nothing if not observed confirmed. -/
theorem C7_two_confirmation_variants :
    (∀ r : SolanaRpc,
        r = ⟨r.get_next_slot, r.confirm_transaction,
          r.confirm_transaction_with_commitment⟩)
    ∧ (∀ (confirmedAt : String → CommitmentLevel → Option Int)
        (slot : Option Nat) (sig : String),
        (mkSolanaRpc confirmedAt slot).confirm_transaction sig
          = confirmedAt sig CommitmentLevel.defaultLevel)
    ∧ (∀ (confirmedAt : String → CommitmentLevel → Option Int)
        (slot : Option Nat) (sig : String) (cc : CommitmentConfig),
        (mkSolanaRpc confirmedAt slot).confirm_transaction_with_commitment sig cc
          = confirmedAt sig cc.commitment) :=
  ⟨fun _ => rfl, fun _ _ _ => rfl, fun _ _ _ _ => rfl⟩

/-- C8: the slot tracker query returns exactly the most recently observed
slot of the spec-modelled oracle state, and its result is an optional
value — `none` for an unknown slot or `some n` for a known one — with no
error or sentinel alternative in the return type. -/
theorem C8_slot_query_optional :
    (∀ (confirmedAt : String → CommitmentLevel → Option Int)
        (slot : Option Nat),
        (mkSolanaRpc confirmedAt slot).get_next_slot = slot)
    ∧ (∀ r : SolanaRpc,
        r.get_next_slot = none ∨ ∃ n : Nat, r.get_next_slot = some n) := by
  constructor
  · intro f s
    rfl
  · intro r
    cases h : r.get_next_slot with
    | none => exact Or.inl rfl
    | some n => exact Or.inr ⟨n, rfl⟩

end AtlasTxnSender
